import Mathlib

/-!
Shallow embedding of the data-access layer and the sentiment scorers of the
investment-agent repository (src/tools/api.py, src/agents/sentiment.py,
src/agents/market_data.py), together with theorems settling the claims
about them.  Python floats are modelled as rationals; Python dictionaries
either as association lists or as functions from keys to optional values;
fallible code returns Except or Option.
-/

/-- A JSON-like payload as stored in the on-disk cache (src/tools/api.py
    read_cache / write_cache).  Mirrors the shapes json.load can produce. -/
inductive Json where
  | null
  | bool (b : Bool)
  | num (q : ℚ)
  | str (s : String)
  | arr (items : List Json)
  | obj (fields : List (String × Json))

/-- Python truthiness of a JSON payload: None, False, 0, empty string,
    empty list and empty dict are falsy, everything else truthy. -/
def jsonTruthy : Json → Bool
  | .null => false
  | .bool b => b
  | .num q => if q = 0 then false else true
  | .str s => if s = "" then false else true
  | .arr [] => false
  | .arr (_ :: _) => true
  | .obj [] => false
  | .obj (_ :: _) => true

/-- The cache-check step shared by all six fetchers (src/tools/api.py, the
    pattern at lines 87-90: read_cache, then `if cached_data: return it`).
    The first component is the value returned, the second is true exactly
    when the upstream provider is called.  `cached` is the read_cache
    result (none = file absent or unreadable); `live` stands for whatever
    the provider path would produce. -/
def cached_fetch (cached : Option Json) (live : Json) : Json × Bool :=
  match cached with
  | some c => if jsonTruthy c then (c, false) else (live, true)
  | none => (live, true)

/-- One provider interaction: either the call raises (fail) or returns a
    raw payload. -/
inductive PResp (α : Type) where
  | fail
  | ok (val : α)

/-- The loop of retry_with_backoff (src/tools/api.py lines 31-49): attempt
    counter x starts at 0; on an exception, if x equals retries the error
    is re-raised, otherwise the call is retried after a backoff sleep.
    `remaining` is retries - x; sleeping is irrelevant to the results and
    is not modelled. -/
def retryAttempts {ε α : Type} (f : Nat → Except ε α) : Nat → Nat → Except ε α
  | x, remaining =>
    match f x, remaining with
    | .ok a, _ => .ok a
    | .error e, 0 => .error e
    | .error _, r + 1 => retryAttempts f (x + 1) r

/-- retry_with_backoff(retries)(func): up to retries + 1 attempts; the
    attempt index is passed to `f` so that distinct attempts can see
    distinct provider responses. -/
def retry_with_backoff {ε α : Type} (retries : Nat) (f : Nat → Except ε α) : Except ε α :=
  retryAttempts f 0 retries

/-- Python dict.get(key, fallback) on a string-to-number dictionary. -/
def dget (d : List (String × ℚ)) (key : String) (fallback : ℚ) : ℚ :=
  (d.lookup key).getD fallback

/-- Raw upstream data consumed by get_market_data on a successful
    stock.info call: the info dictionary, plus the two auxiliary lookups
    that are individually guarded by inner try/except blocks (VIX pair,
    treasury yield); none models the inner exception path, which the code
    replaces by zeros. -/
structure MarketDataRaw where
  info : List (String × ℚ)
  vixPair : Option (ℚ × ℚ)
  treasuryYield : Option ℚ

/-- The normalized market-data record built at src/tools/api.py
    lines 296-305. -/
structure MarketDataRec where
  market_cap : ℚ
  volume : ℚ
  average_volume : ℚ
  fifty_two_week_high : ℚ
  fifty_two_week_low : ℚ
  vix : ℚ
  vix_50d_avg : ℚ
  treasury_yield : ℚ
  deriving DecidableEq

/-- Field-by-field normalization of get_market_data (lines 296-305),
    with the inner-guard defaults of lines 282-294. -/
def normalize_market_data (r : MarketDataRaw) : MarketDataRec where
  market_cap := dget r.info "marketCap" 0
  volume := dget r.info "volume" 0
  average_volume := dget r.info "averageVolume" 0
  fifty_two_week_high := dget r.info "fiftyTwoWeekHigh" 0
  fifty_two_week_low := dget r.info "fiftyTwoWeekLow" 0
  vix := (r.vixPair.map Prod.fst).getD 0
  vix_50d_avg := (r.vixPair.map Prod.snd).getD 0
  treasury_yield := r.treasuryYield.getD 0

/-- One attempt of the get_market_data body on the cache-miss path
    (src/tools/api.py lines 264-308): stock.info is not wrapped in any
    try/except, so a provider failure raises out of the body and is seen
    by the retry decorator. -/
def get_market_data_attempt : PResp MarketDataRaw → Except Unit MarketDataRec
  | .fail => .error ()
  | .ok r => .ok (normalize_market_data r)

/-- get_market_data on the cache-miss path: the decorated body under
    retry_with_backoff(retries=3); `resps` gives the provider response
    seen by each attempt. -/
def get_market_data (resps : Nat → PResp MarketDataRaw) : Except Unit MarketDataRec :=
  retry_with_backoff 3 fun x => get_market_data_attempt (resps x)

/-- The all-zero market-data record used by the caller market_data_agent
    when get_market_data raises (src/agents/market_data.py lines 147-156);
    it is also the degraded shape the spec documents for this kind. -/
def fallback_market_data : MarketDataRec :=
  ⟨0, 0, 0, 0, 0, 0, 0, 0⟩

/-- The stage-level guard around get_market_data in market_data_agent
    (src/agents/market_data.py lines 130-156): an exception is caught and
    replaced by the all-zero record.  The falsy-result branch is dead for
    this kind because the success value is a non-empty dictionary. -/
def market_data_stage_guard : Except Unit MarketDataRec → MarketDataRec
  | .error _ => fallback_market_data
  | .ok r => r

/-- One upstream period of the three statement frames as consumed by
    get_financial_statements (src/tools/api.py lines 196-211); a field is
    none when the named row is absent from its frame. -/
structure StmtRawPeriod where
  free_cash_flow : Option ℚ
  net_income : Option ℚ
  depreciation : Option ℚ
  capital_expenditure : Option ℚ
  total_current_assets : Option ℚ
  total_current_liabilities : Option ℚ

/-- A normalized statement line item (src/tools/api.py lines 201-210). -/
structure LineItem where
  free_cash_flow : ℚ
  net_income : ℚ
  depreciation_and_amortization : ℚ
  capital_expenditure : ℚ
  working_capital : ℚ
  deriving DecidableEq

/-- Normalization of one period (lines 201-210); .get with default 0. -/
def mk_line_item (p : StmtRawPeriod) : LineItem where
  free_cash_flow := p.free_cash_flow.getD 0
  net_income := p.net_income.getD 0
  depreciation_and_amortization := p.depreciation.getD 0
  capital_expenditure := p.capital_expenditure.getD 0
  working_capital := p.total_current_assets.getD 0 - p.total_current_liabilities.getD 0

/-- The default line item of the except branch (lines 223-229). -/
def default_line_item : LineItem := ⟨0, 0, 0, 0, 0⟩

/-- The body of get_financial_statements on the cache-miss path
    (src/tools/api.py lines 178-230).  The entire body sits in one
    try/except Exception, so every failure, provider errors included,
    yields the two default items and never reaches the retry decorator.
    On success the first min(2, n) aligned periods are normalized and a
    sole period is duplicated. -/
def get_financial_statements : PResp (List StmtRawPeriod) → List LineItem
  | .fail => [default_line_item, default_line_item]
  | .ok periods =>
    let line_items := (periods.take 2).map mk_line_item
    if line_items.length = 1 then line_items ++ line_items else line_items

/-- get_financial_statements under its retry decorator: the body is total
    (it catches every exception), so the decorator sees only successes. -/
def get_financial_statements_with_retry
    (resps : Nat → PResp (List StmtRawPeriod)) : Except Unit (List LineItem) :=
  retry_with_backoff 3 fun x => Except.ok (get_financial_statements (resps x))

/-- C1 counterexample: four consecutive provider failures of
    get_market_data do not produce the documented fallback shape; the
    retry decorator re-raises the last error past the Data Access Layer
    boundary, so the claim that the fallback shape is returned and no
    unhandled error surfaces is false at this input. -/
theorem get_market_data_exhaustion_raises :
    get_market_data (fun _ => PResp.fail) = Except.error () ∧
      get_market_data (fun _ => PResp.fail) ≠ Except.ok fallback_market_data := by
  refine ⟨rfl, fun h => ?_⟩
  exact Except.noConfusion
    (show (Except.error () : Except Unit MarketDataRec) =
      Except.ok fallback_market_data from h)

/-- C1 amended: for get_market_data (whose body re-raises provider
    errors), three consecutive failures followed by a success yield
    exactly the one normalized record and no fallback, while a fourth
    consecutive failure makes the retry decorator raise the last error
    past the Data Access Layer; the stage-level guard in
    market_data_agent then converts that error into the all-zero fallback
    record.  For get_financial_statements the body catches every
    exception itself, so the decorator never retries: the first response
    alone determines the result. -/
theorem retry_and_fallback_behavior :
    (∀ (resps : Nat → PResp MarketDataRaw) (r : MarketDataRaw),
        (∀ i, i < 3 → resps i = PResp.fail) → resps 3 = PResp.ok r →
        get_market_data resps = Except.ok (normalize_market_data r)) ∧
    (∀ resps : Nat → PResp MarketDataRaw,
        (∀ i, i ≤ 3 → resps i = PResp.fail) →
        get_market_data resps = Except.error () ∧
        market_data_stage_guard (get_market_data resps) = fallback_market_data) ∧
    (∀ resps : Nat → PResp (List StmtRawPeriod),
        get_financial_statements_with_retry resps =
          Except.ok (get_financial_statements (resps 0))) := by
  refine ⟨?_, ?_, ?_⟩
  · intro resps r h hs
    have e0 := h 0 (by norm_num)
    have e1 := h 1 (by norm_num)
    have e2 := h 2 (by norm_num)
    simp [get_market_data, retry_with_backoff, retryAttempts,
      get_market_data_attempt, e0, e1, e2, hs]
  · intro resps h
    have e0 := h 0 (by norm_num)
    have e1 := h 1 (by norm_num)
    have e2 := h 2 (by norm_num)
    have e3 := h 3 (by norm_num)
    constructor
    · simp [get_market_data, retry_with_backoff, retryAttempts,
        get_market_data_attempt, e0, e1, e2, e3]
    · have : get_market_data resps = Except.error () := by
        simp [get_market_data, retry_with_backoff, retryAttempts,
          get_market_data_attempt, e0, e1, e2, e3]
      rw [this]; rfl
  · intro resps
    rfl

/-- C1 witness: with failing attempts 0-2 and a concrete successful
    fourth response, the retry loop returns the normalized record. -/
theorem retry_and_fallback_behavior_witness :
    get_market_data
        (fun i => if i < 3 then PResp.fail
          else PResp.ok ⟨[("marketCap", 5)], none, none⟩) =
      Except.ok (normalize_market_data ⟨[("marketCap", 5)], none, none⟩) :=
  retry_and_fallback_behavior.1
    (fun i => if i < 3 then PResp.fail
      else PResp.ok ⟨[("marketCap", 5)], none, none⟩)
    ⟨[("marketCap", 5)], none, none⟩
    (fun i hi => by simp [hi]) (by simp)

/-- C2 counterexample: a cache entry that exists but is empty (here the
    cached empty list, which the repository itself writes, for example by
    get_financial_statements on zero upstream periods) is falsy, so the
    fetcher ignores it and calls the provider: the returned value is the
    live one and the provider-called flag is true, contradicting the
    claim that any existing entry is returned verbatim with no call. -/
theorem cached_fetch_empty_entry_calls_provider :
    cached_fetch (some (Json.arr [])) (Json.num 1) = (Json.num 1, true) := rfl

/-- C2 amended: a cache hit returns the cached value verbatim with no
    provider call only when the cached value is truthy (non-empty); a
    falsy cached value is treated as a miss. -/
theorem cached_fetch_truthy_hit (c live : Json) (h : jsonTruthy c = true) :
    cached_fetch (some c) live = (c, false) := by
  simp [cached_fetch, h]

/-- C2 witness: a concrete truthy cached entry is returned verbatim. -/
theorem cached_fetch_truthy_hit_witness :
    cached_fetch (some (Json.num 2)) (Json.num 1) = (Json.num 2, false) :=
  cached_fetch_truthy_hit (Json.num 2) (Json.num 1) (by decide)

/-- C3 counterexample: when the upstream frames have zero periods the
    loop body never runs, the sole-period duplication does not trigger,
    and get_financial_statements returns the empty list, not a
    two-element list; indexing [0] or [1] would fail. -/
theorem get_financial_statements_zero_periods :
    get_financial_statements (PResp.ok []) = [] ∧
      (get_financial_statements (PResp.ok [])).length ≠ 2 := by
  exact ⟨rfl, by decide⟩

/-- C3 amended: get_financial_statements returns exactly two records
    whenever the upstream provides at least one period or the body fails
    (two default records); with exactly one period both returned records
    are the duplicated normalization of that period, hence deep-equal;
    only the zero-period success path returns a list that is not of
    length two. -/
theorem get_financial_statements_two_records :
    (∀ ps : List StmtRawPeriod, ps ≠ [] →
        (get_financial_statements (PResp.ok ps)).length = 2) ∧
    (get_financial_statements PResp.fail).length = 2 ∧
    (∀ p : StmtRawPeriod,
        get_financial_statements (PResp.ok [p]) = [mk_line_item p, mk_line_item p]) := by
  refine ⟨?_, rfl, ?_⟩
  · intro ps hps
    match ps with
    | [] => exact absurd rfl hps
    | [p] => simp [get_financial_statements]
    | p :: q :: rest => simp [get_financial_statements]
  · intro p
    simp [get_financial_statements]

/-- C3 witness: one concrete upstream period yields the duplicated pair. -/
theorem get_financial_statements_two_records_witness :
    (get_financial_statements
        (PResp.ok [⟨some 7, some 3, none, none, some 10, some 4⟩])).length = 2 :=
  get_financial_statements_two_records.1 [⟨some 7, some 3, none, none, some 10, some 4⟩]
    (by simp)

/-- pandas Series.get(key, fallback): the fallback applies only when the
    key is absent, never when the stored value is zero. -/
def series_get (s : List (String × ℚ)) (key : String) (fallback : ℚ) : ℚ :=
  (s.lookup key).getD fallback

/-- One growth rate of get_financial_metrics (src/tools/api.py lines
    112-115): (latest - previous) / previous, where the previous value is
    looked up with default 0 in the numerator and default 1 in the
    denominator.  none marks a zero denominator, where the float code
    divides by zero (producing an infinite or undefined value). -/
def growth_rate (latest prev : List (String × ℚ)) (field : String) : Option ℚ :=
  let denom := series_get prev field 1
  if denom = 0 then none
  else some ((series_get latest field 0 - series_get prev field 0) / denom)

/-- The growth-rate step of get_financial_metrics (lines 107-115): both
    rates stay 0 unless at least two period columns exist; with two or
    more, revenue growth uses the Total Revenue row and earnings growth
    the Net Income row of the two most recent columns. -/
def growth_rates (cols : List (List (String × ℚ))) : Option (ℚ × ℚ) :=
  match cols with
  | latest :: prev :: _ =>
    match growth_rate latest prev "Total Revenue", growth_rate latest prev "Net Income" with
    | some rg, some eg => some (rg, eg)
    | _, _ => none
  | _ => some (0, 0)

/-- C4 counterexample: a previous period that contains Total Revenue with
    value 0 gives denominator 0, not the claimed substituted 1, so the
    division divides by zero; the default 1 applies only to a missing
    key. -/
theorem growth_rates_zero_denominator :
    growth_rates [[("Total Revenue", 5), ("Net Income", 3)],
      [("Total Revenue", 0), ("Net Income", 2)]] = none := by
  decide

/-- C4 amended: with at least two periods, the growth rates are
    (latest - previous) / previous with defaults 0 (numerator lookups)
    and 1 (denominator lookups), but the substitution of 1 happens only
    when the field is absent from the previous period: an absent field
    gives denominator exactly 1, while a present zero value gives a zero
    denominator and an undefined division. -/
theorem growth_rates_formula :
    (∀ (latest prev : List (String × ℚ)) (rest : List (List (String × ℚ))),
        prev.lookup "Total Revenue" ≠ some 0 →
        prev.lookup "Net Income" ≠ some 0 →
        growth_rates (latest :: prev :: rest) =
          some (((series_get latest "Total Revenue" 0 - series_get prev "Total Revenue" 0) /
                  series_get prev "Total Revenue" 1),
                ((series_get latest "Net Income" 0 - series_get prev "Net Income" 0) /
                  series_get prev "Net Income" 1))) ∧
    (∀ prev : List (String × ℚ), ∀ field : String,
        prev.lookup field = none → series_get prev field 1 = 1) := by
  constructor
  · intro latest prev rest hr hn
    have dr : series_get prev "Total Revenue" 1 ≠ 0 := by
      unfold series_get
      cases h : prev.lookup "Total Revenue" with
      | none => simp
      | some v =>
        simp only [Option.getD_some]
        intro hv
        exact hr (hv ▸ h)
    have dn : series_get prev "Net Income" 1 ≠ 0 := by
      unfold series_get
      cases h : prev.lookup "Net Income" with
      | none => simp
      | some v =>
        simp only [Option.getD_some]
        intro hv
        exact hn (hv ▸ h)
    simp [growth_rates, growth_rate, dr, dn]
  · intro prev field h
    simp [series_get, h]

/-- C4 witness: with the field present and nonzero in the previous
    period, the rates are the plain relative differences. -/
theorem growth_rates_formula_witness :
    growth_rates [[("Total Revenue", 6), ("Net Income", 4)],
      [("Total Revenue", 4), ("Net Income", 2)]] = some (1/2, 1) := by
  have h := growth_rates_formula.1
    [("Total Revenue", 6), ("Net Income", 4)]
    [("Total Revenue", 4), ("Net Income", 2)] [] (by decide) (by decide)
  rw [h]
  have e1 : series_get [("Total Revenue", (6:ℚ)), ("Net Income", 4)] "Total Revenue" 0 = 6 := by
    decide
  have e2 : series_get [("Total Revenue", (4:ℚ)), ("Net Income", 2)] "Total Revenue" 0 = 4 := by
    decide
  have e3 : series_get [("Total Revenue", (4:ℚ)), ("Net Income", 2)] "Total Revenue" 1 = 4 := by
    decide
  have e4 : series_get [("Total Revenue", (6:ℚ)), ("Net Income", 4)] "Net Income" 0 = 4 := by
    decide
  have e5 : series_get [("Total Revenue", (4:ℚ)), ("Net Income", 2)] "Net Income" 0 = 2 := by
    decide
  have e6 : series_get [("Total Revenue", (4:ℚ)), ("Net Income", 2)] "Net Income" 1 = 2 := by
    decide
  rw [e1, e2, e3, e4, e5, e6]
  norm_num

/-- One row of an options chain as consumed by get_options_data
    (src/tools/api.py lines 330-341). -/
structure OptionRow where
  volume : ℚ
  implied_volatility : ℚ
  open_interest : ℚ

/-- The calls and puts frames of one expiration. -/
structure OptionsChain where
  calls : List OptionRow
  puts : List OptionRow

/-- Python int() on a rational: truncation toward zero. -/
def py_int (q : ℚ) : ℤ :=
  if 0 ≤ q then ⌊q⌋ else ⌈q⌉

/-- Sum of one numeric column. -/
def col_sum (rows : List OptionRow) (f : OptionRow → ℚ) : ℚ :=
  (rows.map f).sum

/-- pandas mean of one numeric column; none models the NaN produced on an
    empty column. -/
def col_mean (rows : List OptionRow) (f : OptionRow → ℚ) : Option ℚ :=
  match rows with
  | [] => none
  | _ => some ((rows.map f).sum / rows.length)

/-- Result shape of get_options_data: either the one-field error
    dictionary of line 325 or the full record of lines 343-352 / 358-367
    (implied-volatility averages are optional to model NaN). -/
inductive OptionsResult where
  | errorShape (msg : String)
  | record (expiration_date : Option String) (put_call_ratio : ℚ)
      (avg_call_iv : Option ℚ) (avg_put_iv : Option ℚ)
      (total_call_volume : ℤ) (total_put_volume : ℤ)
      (call_open_interest : ℤ) (put_open_interest : ℤ)

/-- The zeroed degraded record returned by the except branch of
    get_options_data (src/tools/api.py lines 358-367). -/
def fallback_options_data : OptionsResult :=
  .record none 0 (some 0) (some 0) 0 0 0 0

/-- The body of get_options_data on the cache-miss path (src/tools/api.py
    lines 310-367): an empty expirations tuple returns the one-field
    error dictionary; otherwise the nearest-expiry chain is aggregated;
    any exception yields the zeroed record. -/
def get_options_data : PResp (List String × OptionsChain) → OptionsResult
  | .fail => fallback_options_data
  | .ok (expirations, chain) =>
    match expirations with
    | [] => .errorShape "No options data available"
    | nearest :: _ =>
      let total_call_volume := col_sum chain.calls (fun r => r.volume)
      let total_put_volume := col_sum chain.puts (fun r => r.volume)
      let pc := if total_call_volume > 0 then total_put_volume / total_call_volume else 0
      .record (some nearest) pc
        (col_mean chain.calls (fun r => r.implied_volatility))
        (col_mean chain.puts (fun r => r.implied_volatility))
        (py_int total_call_volume) (py_int total_put_volume)
        (py_int (col_sum chain.calls (fun r => r.open_interest)))
        (py_int (col_sum chain.puts (fun r => r.open_interest)))

/-- C5 counterexample: an empty upstream expirations list makes
    get_options_data return the one-field error dictionary, not the
    documented degraded record with zero ratios and null expiration. -/
theorem get_options_data_empty_expirations :
    get_options_data (PResp.ok ([], ⟨[], []⟩)) = .errorShape "No options data available" ∧
      get_options_data (PResp.ok ([], ⟨[], []⟩)) ≠ fallback_options_data := by
  refine ⟨rfl, fun h => ?_⟩
  exact OptionsResult.noConfusion
    (show OptionsResult.errorShape "No options data available" =
      fallback_options_data from h)

/-- C5 amended: the zeroed degraded record is produced by the exception
    path of get_options_data, while an empty expirations result produces
    the one-field error dictionary instead. -/
theorem get_options_data_degraded_shapes :
    (∀ chain : OptionsChain,
        get_options_data (PResp.ok ([], chain)) =
          .errorShape "No options data available") ∧
    get_options_data PResp.fail = fallback_options_data := by
  exact ⟨fun chain => rfl, rfl⟩

/-- One raw insider-transaction row as iterated by get_insider_trades
    (src/tools/api.py lines 248-254): the Shares and Value columns plus
    the index date already rendered as a string. -/
structure RawInsiderRow where
  shares : ℤ
  value : ℚ
  date : String

/-- A normalized insider trade (src/tools/api.py lines 249-254). -/
structure InsiderTrade where
  transaction_shares : ℤ
  transaction_type : String
  value : ℚ
  date : String
  deriving DecidableEq

/-- Normalization of one row (lines 249-254): BUY exactly when the share
    count is positive, SELL otherwise. -/
def mk_insider_trade (r : RawInsiderRow) : InsiderTrade :=
  ⟨r.shares, if r.shares > 0 then "BUY" else "SELL", r.value, r.date⟩

/-- The comparison used by sorted(trades, key=date, reverse=True): trade
    a may precede trade b when the date of b is at most the date of a
    (most recent first, comparing date strings lexicographically). -/
def insider_desc (a b : InsiderTrade) : Prop :=
  b.date ≤ a.date

instance : DecidableRel insider_desc := fun a b =>
  inferInstanceAs (Decidable (b.date ≤ a.date))

instance : IsTotal InsiderTrade insider_desc :=
  ⟨fun a b => le_total b.date a.date⟩

instance : IsTrans InsiderTrade insider_desc :=
  ⟨fun _ _ _ hab hbc => le_trans hbc hab⟩

/-- The body of get_insider_trades on the cache-miss path
    (src/tools/api.py lines 232-262): an empty upstream frame returns the
    empty list; otherwise the rows are normalized and stably sorted by
    date string, most recent first (Python sorted is a stable sort, as is
    insertion sort). -/
def get_insider_trades (rows : List RawInsiderRow) : List InsiderTrade :=
  match rows with
  | [] => []
  | _ => List.insertionSort insider_desc (rows.map mk_insider_trade)

/-- C10: on every non-empty upstream result, get_insider_trades returns
    exactly the normalized trades, rearranged into descending order of
    their date strings. -/
theorem get_insider_trades_sorted (rows : List RawInsiderRow) (hne : rows ≠ []) :
    (get_insider_trades rows).Sorted insider_desc ∧
      (get_insider_trades rows).Perm (rows.map mk_insider_trade) := by
  match rows with
  | [] => exact absurd rfl hne
  | r :: rest =>
    exact ⟨List.sorted_insertionSort insider_desc _,
      List.perm_insertionSort insider_desc _⟩

/-- C10 witness: a concrete two-row result is sorted and a permutation of
    its normalization. -/
theorem get_insider_trades_sorted_witness :
    (get_insider_trades [⟨3, 100, "2024-01-05"⟩, ⟨-2, 50, "2024-02-01"⟩]).Sorted
        insider_desc ∧
      (get_insider_trades [⟨3, 100, "2024-01-05"⟩, ⟨-2, 50, "2024-02-01"⟩]).Perm
        ([⟨3, 100, "2024-01-05"⟩, ⟨-2, 50, "2024-02-01"⟩].map mk_insider_trade) :=
  get_insider_trades_sorted [⟨3, 100, "2024-01-05"⟩, ⟨-2, 50, "2024-02-01"⟩] (by simp)

/-- Total value of trades of one transaction type, as summed at
    src/agents/sentiment.py lines 88-91. -/
def trade_value_of (trades : List InsiderTrade) (ty : String) : ℚ :=
  ((trades.filter fun t => t.transaction_type = ty).map InsiderTrade.value).sum

/-- analyze_insider_sentiment (src/agents/sentiment.py lines 82-117).
    An empty list, or zero total buy value together with zero total sell
    value, gives neutral with confidence 0.5; otherwise the buy ratio
    buy / (buy + sell) decides the label and confidence.  none models the
    ZeroDivisionError raised when the totals are not both zero yet cancel
    to zero (possible only with a negative value field). -/
def analyze_insider_sentiment (trades : List InsiderTrade) : Option (String × ℚ) :=
  match trades with
  | [] => some ("neutral", 1/2)
  | _ =>
    let total_buy_value := trade_value_of trades "BUY"
    let total_sell_value := trade_value_of trades "SELL"
    if total_buy_value = 0 ∧ total_sell_value = 0 then some ("neutral", 1/2)
    else if total_buy_value + total_sell_value = 0 then none
    else
      let ratio := total_buy_value / (total_buy_value + total_sell_value)
      if ratio > 7/10 then some ("bullish", min (9/10) ratio)
      else if ratio < 3/10 then some ("bearish", min (9/10 : ℚ) (1 - ratio))
      else some ("neutral", 1/2)

/-- Helper: with nonnegative trade values both totals are nonnegative. -/
theorem trade_value_of_nonneg (trades : List InsiderTrade) (ty : String)
    (h : ∀ t ∈ trades, 0 ≤ t.value) : 0 ≤ trade_value_of trades ty := by
  apply List.sum_nonneg
  intro x hx
  obtain ⟨t, ht, rfl⟩ := List.mem_map.mp hx
  exact h t (List.mem_filter.mp ht).1

/-- C6: over trades with nonnegative monetary values,
    analyze_insider_sentiment returns neutral 0.5 on an empty list or a
    zero total traded value, and otherwise labels by the buy ratio
    buy / (buy + sell): above 0.7 bullish with confidence min 0.9 ratio,
    below 0.3 bearish with confidence min 0.9 (1 - ratio), else neutral
    0.5; in particular buy 800 and sell 200 give ratio 0.8, bullish,
    confidence 0.8. -/
theorem analyze_insider_sentiment_spec (trades : List InsiderTrade)
    (hval : ∀ t ∈ trades, 0 ≤ t.value) :
    (trades = [] → analyze_insider_sentiment trades = some ("neutral", 1/2)) ∧
    (trade_value_of trades "BUY" + trade_value_of trades "SELL" = 0 →
      analyze_insider_sentiment trades = some ("neutral", 1/2)) ∧
    (trade_value_of trades "BUY" + trade_value_of trades "SELL" ≠ 0 →
      analyze_insider_sentiment trades =
        some (if trade_value_of trades "BUY" /
                  (trade_value_of trades "BUY" + trade_value_of trades "SELL") > 7/10 then
                ("bullish", min (9/10)
                  (trade_value_of trades "BUY" /
                    (trade_value_of trades "BUY" + trade_value_of trades "SELL")))
              else if trade_value_of trades "BUY" /
                  (trade_value_of trades "BUY" + trade_value_of trades "SELL") < 3/10 then
                ("bearish", min (9/10 : ℚ)
                  (1 - trade_value_of trades "BUY" /
                    (trade_value_of trades "BUY" + trade_value_of trades "SELL")))
              else ("neutral", 1/2))) ∧
    analyze_insider_sentiment
        [⟨10, "BUY", 800, "2024-01-02"⟩, ⟨-5, "SELL", 200, "2024-01-01"⟩] =
      some ("bullish", 4/5) := by
  have hbuy := trade_value_of_nonneg trades "BUY" hval
  have hsell := trade_value_of_nonneg trades "SELL" hval
  refine ⟨fun he => by rw [he]; rfl, ?_, ?_, ?_⟩
  · intro hzero
    have hb : trade_value_of trades "BUY" = 0 := le_antisymm (by linarith) hbuy
    have hs : trade_value_of trades "SELL" = 0 := le_antisymm (by linarith) hsell
    match trades with
    | [] => rfl
    | t :: rest =>
      simp only [analyze_insider_sentiment]
      rw [if_pos ⟨hb, hs⟩]
  · intro hne
    have hnot : ¬(trade_value_of trades "BUY" = 0 ∧ trade_value_of trades "SELL" = 0) := by
      rintro ⟨hb, hs⟩
      exact hne (by rw [hb, hs, add_zero])
    match trades with
    | [] =>
      exact absurd (by simp [trade_value_of]) hne
    | t :: rest =>
      simp only [analyze_insider_sentiment]
      rw [if_neg hnot, if_neg hne]
      split_ifs <;> rfl
  · have hb8 : trade_value_of
        [⟨10, "BUY", 800, "2024-01-02"⟩, ⟨-5, "SELL", 200, "2024-01-01"⟩] "BUY" = 800 := by
      simp [trade_value_of]
    have hs2 : trade_value_of
        [⟨10, "BUY", 800, "2024-01-02"⟩, ⟨-5, "SELL", 200, "2024-01-01"⟩] "SELL" = 200 := by
      simp [trade_value_of]
    simp only [analyze_insider_sentiment, hb8, hs2]
    norm_num

/-- C6 witness: the concrete 800 buy / 200 sell example evaluated through
    the claim theorem. -/
theorem analyze_insider_sentiment_spec_witness :
    analyze_insider_sentiment
        [⟨10, "BUY", 800, "2024-01-02"⟩, ⟨-5, "SELL", 200, "2024-01-01"⟩] =
      some ("bullish", 4/5) :=
  (analyze_insider_sentiment_spec
    [⟨10, "BUY", 800, "2024-01-02"⟩, ⟨-5, "SELL", 200, "2024-01-01"⟩]
    (by norm_num)).2.2.2

/-- Python round() on the exact rational value: round half to even. -/
def py_round (q : ℚ) : ℤ :=
  if q - ⌊q⌋ < 1/2 then ⌊q⌋
  else if q - ⌊q⌋ > 1/2 then ⌊q⌋ + 1
  else if ⌊q⌋ % 2 = 0 then ⌊q⌋ else ⌊q⌋ + 1

/-- The weighted average of sentiment_agent (src/agents/sentiment.py
    lines 152-173): sub-scores news, fear-greed (already divided by 100),
    options confidence and insider confidence with weights 0.3, 0.3, 0.2,
    0.2, divided by the total weight. -/
def weighted_sentiment (news fear_greed options_conf insider_conf : ℚ) : ℚ :=
  (news * (3/10) + fear_greed * (3/10) + options_conf * (1/5) + insider_conf * (1/5)) /
    ((3/10) + (3/10) + (1/5) + (1/5))

/-- Label and confidence string of sentiment_agent (src/agents/sentiment.py
    lines 176-184). -/
def sentiment_signal (w : ℚ) : String × String :=
  if w ≥ 3/5 then ("bullish", toString (py_round (w * 100)) ++ "%")
  else if w ≤ 2/5 then ("bearish", toString (py_round ((1 - w) * 100)) ++ "%")
  else ("neutral", toString (py_round ((1 - |w - 1/2| * 2) * 100)) ++ "%")

/-- C7 counterexample: for sub-scores 0.65, 0.55, 0.5, 0.8 the weighted
    average is 0.62, not the claimed 0.615. -/
theorem weighted_sentiment_example_value :
    weighted_sentiment 0.65 0.55 0.5 0.8 = 0.62 ∧
      weighted_sentiment 0.65 0.55 0.5 0.8 ≠ 0.615 := by
  constructor <;> norm_num [weighted_sentiment]

/-- C7 amended: the overall sentiment is the weighted average with
    weights news 0.3, fear-greed 0.3, options 0.2, insider 0.2 divided by
    the total weight; a score of at least 0.6 is bullish and at most 0.4
    bearish, otherwise neutral, with the confidence rendered as a rounded
    percentage string; for sub-scores 0.65, 0.55, 0.5, 0.8 the weighted
    average is 0.62, the label bullish and the confidence string 62%. -/
theorem sentiment_signal_spec :
    (∀ w : ℚ, 3/5 ≤ w →
      sentiment_signal w = ("bullish", toString (py_round (w * 100)) ++ "%")) ∧
    (∀ w : ℚ, w ≤ 2/5 →
      sentiment_signal w = ("bearish", toString (py_round ((1 - w) * 100)) ++ "%")) ∧
    (∀ w : ℚ, 2/5 < w → w < 3/5 → (sentiment_signal w).1 = "neutral") ∧
    weighted_sentiment 0.65 0.55 0.5 0.8 = 0.62 ∧
    sentiment_signal (weighted_sentiment 0.65 0.55 0.5 0.8) = ("bullish", "62%") := by
  have hw : weighted_sentiment 0.65 0.55 0.5 0.8 = 31/50 := by
    norm_num [weighted_sentiment]
  refine ⟨?_, ?_, ?_, by norm_num [weighted_sentiment], ?_⟩
  · intro w h
    rw [sentiment_signal, if_pos h]
  · intro w h
    have hne : ¬ (w ≥ 3/5) := by intro hc; linarith
    rw [sentiment_signal, if_neg hne, if_pos h]
  · intro w h1 h2
    have hne : ¬ (w ≥ 3/5) := by intro hc; linarith
    have hne2 : ¬ (w ≤ 2/5) := by intro hc; linarith
    rw [sentiment_signal, if_neg hne, if_neg hne2]
  · rw [hw]
    have hge : (31:ℚ)/50 ≥ 3/5 := by norm_num
    rw [sentiment_signal, if_pos hge]
    have h62 : (31:ℚ)/50 * 100 = 62 := by norm_num
    rw [h62]
    have hf : ⌊(62:ℚ)⌋ = 62 := by
      rw [Int.floor_eq_iff]
      norm_num
    have hpr : py_round (62:ℚ) = 62 := by
      rw [py_round, hf]
      norm_num
    rw [hpr]
    rfl

/-- C7 witness: the first threshold clause applied at a concrete score. -/
theorem sentiment_signal_spec_witness :
    sentiment_signal 1 = ("bullish", toString (py_round ((1:ℚ) * 100)) ++ "%") :=
  sentiment_signal_spec.1 1 (by norm_num)

/-- The min(100, max(0, x)) clamp used by every fear-greed sub-score
    (src/agents/sentiment.py lines 21, 28, 36, 43). -/
def clamp_0_100 (q : ℚ) : ℚ := min 100 (max 0 q)

/-- The market-data fields read by calculate_fear_greed_index
    (src/agents/sentiment.py lines 25-44). -/
structure FearGreedMarketData where
  vix : ℚ
  vix_50d_avg : ℚ
  volume : ℚ
  average_volume : ℚ
  treasury_yield : ℚ

/-- The price-vs-125-period-moving-average momentum sub-score
    (src/agents/sentiment.py lines 17-22) over the close column.  With
    fewer than 125 rows the rolling mean is NaN and the float pipeline
    min(100, max(0, NaN)) evaluates to 0, so the score is zero-filled,
    not omitted; with a zero moving average the float ratio is infinite
    and clamps to 100 for a positive price and 0 otherwise. -/
def momentum_score (closes : List ℚ) : ℚ :=
  if 125 ≤ closes.length then
    if (closes.drop (closes.length - 125)).sum / 125 = 0 then
      (if (closes.getLast?).getD 0 > 0 then 100 else 0)
    else
      clamp_0_100 (((closes.getLast?).getD 0 /
        ((closes.drop (closes.length - 125)).sum / 125) - 1) * 100 + 50)
  else 0

/-- The score list built by calculate_fear_greed_index (lines 15-44):
    the momentum score is appended unconditionally; the VIX, volume and
    treasury sub-scores are appended only when their inputs are truthy
    (nonzero) respectively strictly positive. -/
def fear_greed_scores (closes : List ℚ) (md : FearGreedMarketData) : List ℚ :=
  [momentum_score closes]
    ++ (if md.vix ≠ 0 ∧ md.vix_50d_avg ≠ 0 then
          [clamp_0_100 ((1 - md.vix / md.vix_50d_avg) * 100)] else [])
    ++ (if md.average_volume > 0 then
          [clamp_0_100 ((md.volume / md.average_volume - 1/2) * 100)] else [])
    ++ (if md.treasury_yield ≠ 0 then
          [clamp_0_100 (md.treasury_yield * 10)] else [])

/-- calculate_fear_greed_index (src/agents/sentiment.py lines 13-49) over
    the close column of the price history.  An empty price history gives
    an empty frame with no close column, so the column access raises a
    KeyError; otherwise the mean of the collected scores is returned, the
    50 default applying only to an empty score list. -/
def calculate_fear_greed_index (closes : List ℚ) (md : FearGreedMarketData) :
    Except String ℚ :=
  match closes with
  | [] => .error "KeyError: close"
  | _ =>
    let scores := fear_greed_scores closes md
    .ok (if scores = [] then 50 else scores.sum / scores.length)

/-- Helper: the clamp stays inside the unit-of-100 interval. -/
theorem clamp_0_100_bounds (q : ℚ) : 0 ≤ clamp_0_100 q ∧ clamp_0_100 q ≤ 100 :=
  ⟨le_min (by norm_num) (le_max_left 0 q), min_le_left _ _⟩

/-- Helper: the momentum sub-score stays inside [0, 100]. -/
theorem momentum_score_bounds (closes : List ℚ) :
    0 ≤ momentum_score closes ∧ momentum_score closes ≤ 100 := by
  unfold momentum_score
  split_ifs with h1 h2 h3
  · constructor <;> norm_num
  · constructor <;> norm_num
  · exact clamp_0_100_bounds _
  · constructor <;> norm_num

/-- Helper: every collected fear-greed sub-score lies in [0, 100]. -/
theorem fear_greed_scores_mem_bounds (closes : List ℚ) (md : FearGreedMarketData) :
    ∀ x ∈ fear_greed_scores closes md, 0 ≤ x ∧ x ≤ 100 := by
  unfold fear_greed_scores
  rw [List.forall_mem_append, List.forall_mem_append, List.forall_mem_append]
  refine ⟨⟨⟨?_, ?_⟩, ?_⟩, ?_⟩
  · intro x hx
    rw [List.mem_singleton] at hx
    subst hx
    exact momentum_score_bounds closes
  · split_ifs with h
    · intro x hx
      rw [List.mem_singleton] at hx
      subst hx
      exact clamp_0_100_bounds _
    · intro x hx
      exact absurd hx (List.not_mem_nil x)
  · split_ifs with h
    · intro x hx
      rw [List.mem_singleton] at hx
      subst hx
      exact clamp_0_100_bounds _
    · intro x hx
      exact absurd hx (List.not_mem_nil x)
  · split_ifs with h
    · intro x hx
      rw [List.mem_singleton] at hx
      subst hx
      exact clamp_0_100_bounds _
    · intro x hx
      exact absurd hx (List.not_mem_nil x)

/-- Helper: the mean of a non-empty list of values in [0, 100] lies in
    [0, 100]. -/
theorem mean_bounds (l : List ℚ) (hne : l ≠ []) (h : ∀ x ∈ l, 0 ≤ x ∧ x ≤ 100) :
    0 ≤ l.sum / l.length ∧ l.sum / l.length ≤ 100 := by
  have hlen : 0 < (l.length : ℚ) := by
    exact_mod_cast List.length_pos.mpr hne
  constructor
  · exact div_nonneg (List.sum_nonneg fun x hx => (h x hx).1) (le_of_lt hlen)
  · rw [div_le_iff₀ hlen]
    have hs := List.sum_le_card_nsmul l 100 (fun x hx => (h x hx).2)
    rw [nsmul_eq_mul] at hs
    linarith

/-- C8 counterexample: an empty price history makes
    calculate_fear_greed_index raise (the empty frame has no close
    column), so no value, in particular not the neutral 50, is
    returned. -/
theorem calculate_fear_greed_index_empty :
    calculate_fear_greed_index [] ⟨0, 0, 0, 0, 0⟩ = .error "KeyError: close" ∧
      ∀ q : ℚ, calculate_fear_greed_index [] ⟨0, 0, 0, 0, 0⟩ ≠ .ok q := by
  refine ⟨rfl, fun q h => ?_⟩
  exact Except.noConfusion
    (show (Except.error "KeyError: close" : Except String ℚ) = Except.ok q from h)

/-- C8 amended: on a non-empty price history the function returns the
    arithmetic mean of the collected sub-scores, each clamped to
    [0, 100]; the momentum sub-score is always included (zero-filled via
    the NaN clamp when fewer than 125 periods exist, not omitted), while
    the VIX, volume and treasury sub-scores are omitted when their inputs
    are missing or zero; the score list is therefore never empty, the 50
    default is unreachable there, and the result always lies in [0, 100].
    An empty price history raises instead of returning 50. -/
theorem calculate_fear_greed_index_spec (closes : List ℚ) (md : FearGreedMarketData)
    (hne : closes ≠ []) :
    calculate_fear_greed_index closes md =
      .ok ((fear_greed_scores closes md).sum / (fear_greed_scores closes md).length) ∧
    fear_greed_scores closes md ≠ [] ∧
    ∃ q, calculate_fear_greed_index closes md = .ok q ∧ 0 ≤ q ∧ q ≤ 100 := by
  have hsne : fear_greed_scores closes md ≠ [] := by
    unfold fear_greed_scores
    simp
  have heval : calculate_fear_greed_index closes md =
      .ok ((fear_greed_scores closes md).sum / (fear_greed_scores closes md).length) := by
    match closes, hne with
    | c :: cs, _ =>
      simp only [calculate_fear_greed_index]
      rw [if_neg hsne]
  have hb := mean_bounds (fear_greed_scores closes md) hsne
    (fear_greed_scores_mem_bounds closes md)
  exact ⟨heval, hsne, _, heval, hb.1, hb.2⟩

/-- C8 witness: a concrete one-row price history yields an ok value in
    [0, 100]. -/
theorem calculate_fear_greed_index_spec_witness :
    ∃ q, calculate_fear_greed_index [10] ⟨0, 0, 0, 0, 0⟩ = .ok q ∧ 0 ≤ q ∧ q ≤ 100 :=
  (calculate_fear_greed_index_spec [10] ⟨0, 0, 0, 0, 0⟩ (by simp)).2.2

/-- The shared-state data mapping threaded through the agents: a Python
    dictionary keyed by strings. -/
def PyDict := String → Option Json

/-- Setting one key of a dictionary, as one key-value pair of a dict
    literal does. -/
def dict_set (d : PyDict) (key : String) (v : Json) : PyDict :=
  fun k => if k = key then some v else d k

/-- Python dict.get(key, fallback) on a JSON object. -/
def obj_get (fields : List (String × Json)) (key : String) (fallback : Json) : Json :=
  (fields.lookup key).getD fallback

/-- The keys market_data_agent writes into the data mapping
    (src/agents/market_data.py lines 160-171). -/
def market_data_written_keys : List String :=
  ["prices", "start_date", "end_date", "current_date", "financial_metrics",
   "financial_line_items", "insider_trades", "market_cap", "market_data"]

/-- The data mapping returned by market_data_agent (src/agents/
    market_data.py lines 158-172): the Python literal spreads the
    incoming data and then overrides the nine listed keys, market_cap
    being looked up inside the fetched market-data object with default
    0.  The fetched values themselves are parameters here; the claim
    concerns only which keys change. -/
def market_data_agent_data (data : PyDict) (prices start_date end_date current_date
    financial_metrics financial_line_items insider_trades : Json)
    (market_data_fields : List (String × Json)) : PyDict :=
  dict_set (dict_set (dict_set (dict_set (dict_set (dict_set (dict_set (dict_set (dict_set
    data "prices" prices) "start_date" start_date) "end_date" end_date)
    "current_date" current_date) "financial_metrics" financial_metrics)
    "financial_line_items" financial_line_items) "insider_trades" insider_trades)
    "market_cap" (obj_get market_data_fields "market_cap" (Json.num 0)))
    "market_data" (Json.obj market_data_fields)

/-- C9: market_data_agent preserves every entry of the incoming data
    mapping whose key is not one of the nine keys it writes; in
    particular the ticker, portfolio and num_of_news entries are
    unchanged. -/
theorem market_data_agent_frame (data : PyDict)
    (prices sd ed cd fm fli it : Json) (mdf : List (String × Json)) :
    (∀ k, k ∉ market_data_written_keys →
      market_data_agent_data data prices sd ed cd fm fli it mdf k = data k) ∧
    market_data_agent_data data prices sd ed cd fm fli it mdf "ticker" = data "ticker" ∧
    market_data_agent_data data prices sd ed cd fm fli it mdf "portfolio" =
      data "portfolio" ∧
    market_data_agent_data data prices sd ed cd fm fli it mdf "num_of_news" =
      data "num_of_news" := by
  have hgen : ∀ k, k ∉ market_data_written_keys →
      market_data_agent_data data prices sd ed cd fm fli it mdf k = data k := by
    intro k hk
    simp only [market_data_written_keys, List.mem_cons, List.not_mem_nil, or_false] at hk
    push_neg at hk
    obtain ⟨h1, h2, h3, h4, h5, h6, h7, h8, h9⟩ := hk
    simp only [market_data_agent_data, dict_set]
    rw [if_neg h9, if_neg h8, if_neg h7, if_neg h6, if_neg h5, if_neg h4,
      if_neg h3, if_neg h2, if_neg h1]
  exact ⟨hgen, hgen "ticker" (by decide), hgen "portfolio" (by decide),
    hgen "num_of_news" (by decide)⟩

/-- C9 witness: on a concrete empty mapping, the ticker entry of the
    result is the ticker entry of the input. -/
theorem market_data_agent_frame_witness :
    market_data_agent_data (fun _ => none) Json.null Json.null Json.null Json.null
      Json.null Json.null Json.null [] "ticker" = none :=
  (market_data_agent_frame (fun _ => none) Json.null Json.null Json.null Json.null
    Json.null Json.null Json.null []).2.1
